import Mathlib

/-!
Shallow embedding of `src/utils.py` of the `rt_forecasting_nixtla_lstm`
repository, together with theorems settling the specification claims about it.

The profiler (`TimeAndMemoryTracker`) is modelled as a pair of state
transitions (`enter`, `exit`) over an explicit tracker state, each also
returning the ordered list of observable effects (tracemalloc calls, CUDA API
calls, logger messages) it performs.  Python's `with`-statement semantics is
modelled by `pyWith`: the exit step always runs, and the wrapped block's
failure is suppressed exactly when `__exit__` returns a truthy value.

Quantities the Python code holds as floats (timestamps, megabyte figures) are
modelled as rationals; peak byte counts are naturals.  External collaborators
(the file system, `pd.read_csv`, `json.load`) are explicit parameters.
-/

/-- A message written to the logger sink (`logger.info`).  The constructor
records which report line it is and the numeric value embedded in it
(`Execution time: {v:.2f} seconds`, `CPU Memory allocated (peak): {v:.2f} MB`,
`CUDA Memory allocated (peak): {v:.2f} MB`). -/
inductive Message
  | execTime (seconds : ℚ)
  | cpuMem (mb : ℚ)
  | cudaMem (mb : ℚ)
deriving DecidableEq

/-- An observable effect performed by the tracker on the process-wide
measurement state or the logger. -/
inductive Effect
  | tracemallocStart
  | tracemallocGetTraced
  | tracemallocStop
  | cudaIsAvailable
  | cudaResetPeak
  | cudaEmptyCache
  | cudaCurrentDevice
  | cudaMaxMemoryAllocated
  | logInfo (m : Message)
deriving DecidableEq

/-- `true` exactly on logger-message effects. -/
def Effect.isLog : Effect → Bool
  | Effect.logInfo _ => true
  | _ => false

/-- `true` exactly on the CUDA-memory report message. -/
def Message.isCudaMem : Message → Bool
  | Message.cudaMem _ => true
  | _ => false

/-- The logger messages occurring in an effect trace, in order. -/
def logMessages (es : List Effect) : List Message :=
  es.filterMap fun e =>
    match e with
    | Effect.logInfo m => some m
    | _ => none

/-- The runtime environment a tracker session runs in: whether
`torch.cuda.is_available()`, the two `time.time()` readings, the peak byte
count `tracemalloc.get_traced_memory()` reports at exit, and the byte count
`torch.cuda.max_memory_allocated(current_device)` reports at exit. -/
structure TrackerEnv where
  cudaAvailable : Bool
  startTime : ℚ
  endTime : ℚ
  tracedPeakBytes : ℕ
  cudaPeakBytes : ℕ

/-- The mutable state a tracker session touches: whether tracemalloc tracing
is active, and the `self.start_time` / `self.end_time` attributes. -/
structure TrackerState where
  tracingActive : Bool
  start_time : Option ℚ
  end_time : Option ℚ
deriving DecidableEq

/-- Python truthiness of an optional float: `None` and `0.0` are falsy,
every other value is truthy (this is the test `if cuda_peak:`). -/
def pyTruthy : Option ℚ → Bool
  | none => false
  | some v => if v = 0 then false else true

/-- `get_peak_memory_usage` from `utils.py`: `None` when no CUDA device is
available, else the peak bytes allocated on the current device divided by
`1024 * 1024`.  Also returns the CUDA API calls it performs. -/
def get_peak_memory_usage (env : TrackerEnv) : Option ℚ × List Effect :=
  if env.cudaAvailable = false then
    (none, [Effect.cudaIsAvailable])
  else
    (some ((env.cudaPeakBytes : ℚ) / (1024 * 1024)),
     [Effect.cudaIsAvailable, Effect.cudaCurrentDevice, Effect.cudaMaxMemoryAllocated])

namespace TimeAndMemoryTracker

/-- `TimeAndMemoryTracker.__enter__`: start tracemalloc tracing, record the
entry wall-clock time, and when a CUDA device is available reset its peak
memory statistics and empty its cache. -/
def enter (env : TrackerEnv) (s : TrackerState) : TrackerState × List Effect :=
  ({ s with tracingActive := true, start_time := some env.startTime },
   [Effect.tracemallocStart, Effect.cudaIsAvailable] ++
     (if env.cudaAvailable then [Effect.cudaResetPeak, Effect.cudaEmptyCache] else []))

/-- `TimeAndMemoryTracker.__exit__`: record the exit wall-clock time, query
and stop tracemalloc, compute the CPU and (optional) CUDA megabyte figures and
the elapsed seconds, and log the report lines — the CUDA line only when
`cuda_peak` is truthy.  The final `Bool` is the truthiness of the method's
return value (`None`, hence `false`): it decides whether a failure of the
wrapped block is suppressed. -/
def exit (env : TrackerEnv) (s : TrackerState) : TrackerState × List Effect × Bool :=
  let cpu_memory : ℚ := (env.tracedPeakBytes : ℚ) / (1024 * 1024)
  let cudaRes := get_peak_memory_usage env
  let elapsed_time : ℚ := env.endTime - (s.start_time.getD 0)
  ({ s with tracingActive := false, end_time := some env.endTime },
   [Effect.tracemallocGetTraced, Effect.tracemallocStop] ++ cudaRes.2 ++
     [Effect.logInfo (Message.execTime elapsed_time),
      Effect.logInfo (Message.cpuMem cpu_memory)] ++
     (if pyTruthy cudaRes.1 then [Effect.logInfo (Message.cudaMem (cudaRes.1.getD 0))]
      else []),
   false)

end TimeAndMemoryTracker

/-- Python `with`-statement semantics over an enter/exit pair: the exit step
runs on every exit path; when the body failed, the failure is suppressed (the
statement completes normally with no value) exactly when `__exit__`'s return
value is truthy, and otherwise propagates unchanged. -/
def pyWith {σ E A : Type} (enterFn : σ → σ × List Effect)
    (exitFn : σ → σ × List Effect × Bool) (s : σ) (body : Except E A) :
    Except E (Option A) × σ × List Effect :=
  let r1 := enterFn s
  let r2 := exitFn r1.1
  match body with
  | Except.ok a => (Except.ok (some a), r2.1, r1.2 ++ r2.2.1)
  | Except.error e =>
      (if r2.2.2 then Except.ok none else Except.error e, r2.1, r1.2 ++ r2.2.1)

/-- A whole tracker session: `with TimeAndMemoryTracker(logger):` around a
block whose outcome is `body`. -/
def TimeAndMemoryTracker.run (env : TrackerEnv) (s : TrackerState) {E A : Type}
    (body : Except E A) : Except E (Option A) × TrackerState × List Effect :=
  pyWith (TimeAndMemoryTracker.enter env) (TimeAndMemoryTracker.exit env) s body

/-- Interpretation of an effect on the tracker state: only the tracemalloc
start/stop calls change whether tracing is active. -/
def applyEffect (s : TrackerState) : Effect → TrackerState
  | Effect.tracemallocStart => { s with tracingActive := true }
  | Effect.tracemallocStop => { s with tracingActive := false }
  | _ => s

/-- Run a list of effects left to right on the tracker state. -/
def applyEffects (es : List Effect) (s : TrackerState) : TrackerState :=
  es.foldl applyEffect s

/-! ### The out-of-scope helper functions -/

/-- A Python exception, as raised by the helpers. -/
inductive PyErr
  | fileNotFoundError (msg : String)
  | valueError (msg : String)
  | typeError (msg : String)
  | notADirectoryError
deriving DecidableEq

/-- What a path names on the file system: a directory (with its `os.listdir`
listing, in listing order), a plain file, or nothing. -/
inductive PathKind
  | dir (listing : List String)
  | file
  | missing
deriving DecidableEq

/-- An abstract file system: every path has a kind. -/
structure FileSys where
  kind : String → PathKind

/-- `os.path.join` for the single-separator uses in `utils.py`. -/
def os_path_join (a b : String) : String := a ++ "/" ++ b

/-- Python's `str.endswith`: the suffix test on the character sequences. -/
def strEndsWith (s suffix : String) : Bool :=
  (suffix.data.length ≤ s.data.length) &&
    (s.data.drop (s.data.length - suffix.data.length) == suffix.data)

/-- `os.path.exists`: true when the path names a file or a directory. -/
def os_path_exists (fs : FileSys) (p : String) : Bool :=
  match fs.kind p with
  | PathKind.missing => false
  | _ => true

/-- The contents of a parsed CSV file, abstractly. -/
structure DataFrame where
  content : String
deriving DecidableEq

/-- The contents of a parsed JSON file, abstractly. -/
structure JsonDict where
  content : String
deriving DecidableEq

/-- `read_csv_in_directory` from `utils.py`: `FileNotFoundError` when the
path does not exist, else list the directory, keep the names ending in
`.csv`, raise `ValueError` when there are none or more than one, and read the
single match (`pd.read_csv` is the abstract parameter `pd_read_csv`). -/
def read_csv_in_directory (fs : FileSys) (pd_read_csv : String → DataFrame)
    (file_dir_path : String) : Except PyErr DataFrame :=
  if os_path_exists fs file_dir_path = false then
    Except.error (PyErr.fileNotFoundError ("Directory does not exist: " ++ file_dir_path))
  else
    match fs.kind file_dir_path with
    | PathKind.dir listing =>
        let csv_files := listing.filter (fun file => strEndsWith file ".csv")
        if csv_files.isEmpty then
          Except.error (PyErr.valueError ("No CSV file found in directory " ++ file_dir_path))
        else if 1 < csv_files.length then
          Except.error
            (PyErr.valueError ("Multiple CSV files found in directory " ++ file_dir_path ++ "."))
        else
          Except.ok (pd_read_csv (os_path_join file_dir_path (csv_files.headD "")))
    | _ => Except.error PyErr.notADirectoryError

/-- `read_json_as_dict` from `utils.py`: on a directory, collect the joined
paths of the names ending in `.json`, raise `ValueError` when there are none
and otherwise read the first; on a file, read it; otherwise raise
`ValueError` (`json.load` is the abstract parameter `json_load`). -/
def read_json_as_dict (fs : FileSys) (json_load : String → JsonDict)
    (input_path : String) : Except PyErr JsonDict :=
  match fs.kind input_path with
  | PathKind.dir listing =>
      let json_files :=
        (listing.filter (fun f => strEndsWith f ".json")).map (fun f => os_path_join input_path f)
      match json_files with
      | [] => Except.error (PyErr.valueError "No JSON files found in the directory")
      | jf :: _ => Except.ok (json_load jf)
  | PathKind.file => Except.ok (json_load input_path)
  | PathKind.missing =>
      Except.error (PyErr.valueError "Input path is neither a file nor a directory")

/-- A Python value handed to `set_seeds`. -/
inductive PyVal
  | int (n : ℤ)
  | float (q : ℚ)
  | str (s : String)
  | noneVal
deriving DecidableEq

/-- Rendering of a `PyVal` inside an f-string, for the error message. -/
def pyStrOf : PyVal → String
  | PyVal.int n => toString n
  | PyVal.float q => toString q
  | PyVal.str s => s
  | PyVal.noneVal => "None"

/-- The process-wide generator states `set_seeds` touches:
`os.environ["PYTHONHASHSEED"]`, the `random` module state, and the
`np.random` state. -/
structure RngState where
  pythonhashseed : Option String
  random_state : Option ℤ
  np_random_state : Option ℤ
deriving DecidableEq

/-- `set_seeds` from `utils.py`: when the value is an `int`, set all three
generator states from it; otherwise raise `ValueError`. -/
def set_seeds (seed_value : PyVal) (s : RngState) : Except PyErr RngState :=
  match seed_value with
  | PyVal.int n =>
      Except.ok
        { s with
          pythonhashseed := some (toString n)
          random_state := some n
          np_random_state := some n }
  | v =>
      Except.error
        (PyErr.valueError ("Invalid seed value: " ++ pyStrOf v ++ ". Cannot set seeds."))

/-- A Python object handed to `make_serializable`:  a Python `int`, a numpy
integer, a numpy floating-point number, a numpy array, or one of the other
object kinds the function can receive. -/
inductive PyObj
  | pyInt (n : ℤ)
  | npInt (n : ℤ)
  | npFloat (q : ℚ)
  | npArray (xs : List ℚ)
  | pyFloat (q : ℚ)
  | pyStr (s : String)
  | pyNone
deriving DecidableEq

/-- The Python class name of a `PyObj`, for the `TypeError` message. -/
def PyObj.typeName : PyObj → String
  | PyObj.pyInt _ => "int"
  | PyObj.npInt _ => "int64"
  | PyObj.npFloat _ => "float64"
  | PyObj.npArray _ => "ndarray"
  | PyObj.pyFloat _ => "float"
  | PyObj.pyStr _ => "str"
  | PyObj.pyNone => "NoneType"

/-- The value `make_serializable` returns: a plain `int`, `float`, or list. -/
inductive Serialized
  | intVal (n : ℤ)
  | floatVal (q : ℚ)
  | listVal (xs : List ℚ)
deriving DecidableEq

/-- `json.JSONEncoder.default`: unconditionally raises `TypeError`. -/
def json_JSONEncoder_default (obj : PyObj) : Except PyErr Serialized :=
  Except.error
    (PyErr.typeError ("Object of type " ++ obj.typeName ++ " is not JSON serializable"))

/-- `make_serializable` from `utils.py`: Python and numpy integers become
`int`, numpy floats become `float`, numpy arrays become lists, and everything
else is handed to `json.JSONEncoder.default`, which raises `TypeError`. -/
def make_serializable (obj : PyObj) : Except PyErr Serialized :=
  match obj with
  | PyObj.pyInt n => Except.ok (Serialized.intVal n)
  | PyObj.npInt n => Except.ok (Serialized.intVal n)
  | PyObj.npFloat q => Except.ok (Serialized.floatVal q)
  | PyObj.npArray xs => Except.ok (Serialized.listVal xs)
  | o => json_JSONEncoder_default o

/-! ### Concrete fixtures used to evaluate the definitions on closed inputs -/

/-- A tracker state with tracing inactive and no recorded times. -/
def state0 : TrackerState := { tracingActive := false, start_time := none, end_time := none }

/-- A tracker state in which tracing is (still) active. -/
def stateActive : TrackerState := { tracingActive := true, start_time := none, end_time := none }

/-- A CUDA device is present but its peak counter reads zero bytes. -/
def envCudaZeroA : TrackerEnv :=
  { cudaAvailable := true, startTime := 0, endTime := 1, tracedPeakBytes := 2097152,
    cudaPeakBytes := 0 }

/-- A second environment with a present CUDA device and a zero peak counter. -/
def envCudaZeroB : TrackerEnv :=
  { cudaAvailable := true, startTime := 0, endTime := 2, tracedPeakBytes := 1048576,
    cudaPeakBytes := 0 }

/-- No CUDA device is present. -/
def envNoCuda : TrackerEnv :=
  { cudaAvailable := false, startTime := 1, endTime := 3, tracedPeakBytes := 1048576,
    cudaPeakBytes := 5 }

/-- A CUDA device is present with a nonzero (3 MB) peak counter. -/
def envCudaThree : TrackerEnv :=
  { cudaAvailable := true, startTime := 0, endTime := 1, tracedPeakBytes := 1048576,
    cudaPeakBytes := 3145728 }

/-- A small file system with one path of every shape the helpers branch on. -/
def fsFixture : FileSys :=
  ⟨fun p =>
    if p = "missing" then PathKind.missing
    else if p = "nocsv" then PathKind.dir ["a.txt", "b.json"]
    else if p = "multicsv" then PathKind.dir ["a.csv", "b.csv"]
    else if p = "onecsv" then PathKind.dir ["data.csv", "note.txt"]
    else if p = "multijson" then PathKind.dir ["a.json", "b.json", "c.txt"]
    else PathKind.file⟩

/-- A concrete stand-in for `pd.read_csv`: tags the data frame with its path. -/
def readCsvFixture : String → DataFrame := fun p => { content := p }

/-- A concrete stand-in for `json.load`: tags the dictionary with its path. -/
def jsonLoadFixture : String → JsonDict := fun p => { content := p }

/-- An initial generator state with nothing seeded. -/
def rngFixture : RngState :=
  { pythonhashseed := none, random_state := none, np_random_state := none }

/-! ## Theorems -/

/-- C1: for every wrapped unit of work that fails with an error, the release
step still executes — the exit time is recorded, tracing is queried and
stopped, and the report messages for the available metrics are emitted — and
the error then propagates to the caller unchanged. -/
theorem c1_release_runs_and_error_propagates (env : TrackerEnv) (s : TrackerState)
    (E A : Type) (e : E) :
    (TimeAndMemoryTracker.run env s (Except.error e : Except E A)).1 = Except.error e ∧
    (TimeAndMemoryTracker.run env s (Except.error e : Except E A)).2.1.end_time
      = some env.endTime ∧
    Effect.tracemallocGetTraced ∈
      (TimeAndMemoryTracker.run env s (Except.error e : Except E A)).2.2 ∧
    Effect.tracemallocStop ∈
      (TimeAndMemoryTracker.run env s (Except.error e : Except E A)).2.2 ∧
    Message.execTime (env.endTime - env.startTime) ∈
      logMessages (TimeAndMemoryTracker.run env s (Except.error e : Except E A)).2.2 ∧
    Message.cpuMem ((env.tracedPeakBytes : ℚ) / (1024 * 1024)) ∈
      logMessages (TimeAndMemoryTracker.run env s (Except.error e : Except E A)).2.2 := by
  cases hc : env.cudaAvailable <;>
    simp [TimeAndMemoryTracker.run, pyWith, TimeAndMemoryTracker.enter,
      TimeAndMemoryTracker.exit, get_peak_memory_usage, pyTruthy, hc, logMessages]

/-- C3: host-heap tracing is started at scope entry and stopped at scope exit
on every exit path (normal completion or failure of the wrapped block), so
tracing is inactive immediately after release. -/
theorem c3_tracing_scoped_to_session (env : TrackerEnv) (s : TrackerState)
    (E A : Type) (body : Except E A) :
    (TimeAndMemoryTracker.enter env s).1.tracingActive = true ∧
    Effect.tracemallocStart ∈ (TimeAndMemoryTracker.enter env s).2 ∧
    Effect.tracemallocStop ∈ (TimeAndMemoryTracker.run env s body).2.2 ∧
    (TimeAndMemoryTracker.run env s body).2.1.tracingActive = false := by
  cases body <;> cases hc : env.cudaAvailable <;>
    simp [TimeAndMemoryTracker.run, pyWith, TimeAndMemoryTracker.enter,
      TimeAndMemoryTracker.exit, get_peak_memory_usage, pyTruthy, hc]

/-- C5: when no accelerator device is available, no accelerator peak value is
computed, no accelerator reset/clear operation is attempted at entry, and no
accelerator-related message is emitted at release. -/
theorem c5_no_accelerator_no_cuda_ops (env : TrackerEnv) (s : TrackerState)
    (E A : Type) (body : Except E A) (h : env.cudaAvailable = false) :
    (get_peak_memory_usage env).1 = none ∧
    Effect.cudaResetPeak ∉ (TimeAndMemoryTracker.enter env s).2 ∧
    Effect.cudaEmptyCache ∉ (TimeAndMemoryTracker.enter env s).2 ∧
    Effect.cudaMaxMemoryAllocated ∉ (TimeAndMemoryTracker.run env s body).2.2 ∧
    (logMessages (TimeAndMemoryTracker.run env s body).2.2).any Message.isCudaMem
      = false := by
  cases body <;>
    simp [TimeAndMemoryTracker.run, pyWith, TimeAndMemoryTracker.enter,
      TimeAndMemoryTracker.exit, get_peak_memory_usage, pyTruthy, h, logMessages,
      Message.isCudaMem]

/-- C5 witness: the no-accelerator conclusions evaluated on a concrete
environment and a concrete failing body. -/
theorem c5_witness :
    envNoCuda.cudaAvailable = false ∧
    ((get_peak_memory_usage envNoCuda).1 = none ∧
     Effect.cudaResetPeak ∉ (TimeAndMemoryTracker.enter envNoCuda state0).2 ∧
     Effect.cudaEmptyCache ∉ (TimeAndMemoryTracker.enter envNoCuda state0).2 ∧
     Effect.cudaMaxMemoryAllocated ∉
       (TimeAndMemoryTracker.run envNoCuda state0 (Except.error 7 : Except ℕ ℕ)).2.2 ∧
     (logMessages
         (TimeAndMemoryTracker.run envNoCuda state0
           (Except.error 7 : Except ℕ ℕ)).2.2).any Message.isCudaMem = false) :=
  ⟨rfl, c5_no_accelerator_no_cuda_ops envNoCuda state0 ℕ ℕ (Except.error 7) rfl⟩

/-- C2 counterexample: with an accelerator present whose peak counter reads
zero, the peak value is obtained (`some 0`) but no accelerator message is
emitted — the value is omitted from the report even though a device is
present, so the claim as stated fails on the code (`if cuda_peak:` is falsy
at `0.0`). -/
theorem c2_counterexample :
    envCudaZeroA.cudaAvailable = true ∧
    (get_peak_memory_usage envCudaZeroA).1 = some 0 ∧
    (logMessages
        (TimeAndMemoryTracker.run envCudaZeroA state0
          (Except.ok (0 : ℕ) : Except Unit ℕ)).2.2).any Message.isCudaMem = false := by
  refine ⟨rfl, ?_, ?_⟩
  · norm_num [get_peak_memory_usage, envCudaZeroA]
  · norm_num [TimeAndMemoryTracker.run, pyWith, TimeAndMemoryTracker.enter,
      TimeAndMemoryTracker.exit, get_peak_memory_usage, pyTruthy, envCudaZeroA, state0,
      logMessages, Message.isCudaMem]

/-- C2 amended: at release the accelerator peak value is obtained as an
optional value — absent exactly when no device is present — but the message
is emitted only when the obtained value is truthy, i.e. when a device is
present and its peak is nonzero; a present accelerator with a zero peak emits
no message. -/
theorem c2_amended_optional_value_nonzero_report (env : TrackerEnv) (s : TrackerState) :
    ((get_peak_memory_usage env).1 = none ↔ env.cudaAvailable = false) ∧
    (env.cudaAvailable = true →
      (get_peak_memory_usage env).1 = some ((env.cudaPeakBytes : ℚ) / (1024 * 1024))) ∧
    (env.cudaAvailable = true → env.cudaPeakBytes ≠ 0 →
      Message.cudaMem ((env.cudaPeakBytes : ℚ) / (1024 * 1024)) ∈
        logMessages (TimeAndMemoryTracker.exit env s).2.1) ∧
    ((logMessages (TimeAndMemoryTracker.exit env s).2.1).countP Message.isCudaMem =
      if env.cudaAvailable = true ∧ env.cudaPeakBytes ≠ 0 then 1 else 0) := by
  cases hc : env.cudaAvailable
  · simp [TimeAndMemoryTracker.exit, get_peak_memory_usage, pyTruthy, hc, logMessages,
      Message.isCudaMem, List.countP_cons]
  · by_cases hp : env.cudaPeakBytes = 0
    · simp [TimeAndMemoryTracker.exit, get_peak_memory_usage, pyTruthy, hc, hp,
        logMessages, Message.isCudaMem, List.countP_cons]
    · have hq : ((env.cudaPeakBytes : ℚ) / (1024 * 1024)) ≠ 0 :=
        div_ne_zero (Nat.cast_ne_zero.mpr hp) (by norm_num)
      simp [TimeAndMemoryTracker.exit, get_peak_memory_usage, pyTruthy, hc, hp, hq,
        logMessages, Message.isCudaMem, List.countP_cons]

/-- C2 amended witness: on a present accelerator with a 3 MB peak, the value
is obtained and the accelerator message is emitted. -/
theorem c2_amended_witness :
    envCudaThree.cudaAvailable = true ∧ envCudaThree.cudaPeakBytes ≠ 0 ∧
    (get_peak_memory_usage envCudaThree).1
      = some ((envCudaThree.cudaPeakBytes : ℚ) / (1024 * 1024)) ∧
    Message.cudaMem ((envCudaThree.cudaPeakBytes : ℚ) / (1024 * 1024)) ∈
      logMessages (TimeAndMemoryTracker.exit envCudaThree state0).2.1 :=
  ⟨rfl, by decide,
   (c2_amended_optional_value_nonzero_report envCudaThree state0).2.1 rfl,
   (c2_amended_optional_value_nonzero_report envCudaThree state0).2.2.1 rfl (by decide)⟩

/-- C4 counterexample: a wrapped block completes normally while an
accelerator is present with a zero peak counter, and no accelerator-memory
message is emitted — so "only when an accelerator is present, exactly one
accelerator-memory message" fails on the code. -/
theorem c4_counterexample :
    envCudaZeroB.cudaAvailable = true ∧
    (TimeAndMemoryTracker.run envCudaZeroB state0 (Except.ok (0 : ℕ) : Except Unit ℕ)).1
      = Except.ok (some 0) ∧
    (logMessages
        (TimeAndMemoryTracker.run envCudaZeroB state0
          (Except.ok (0 : ℕ) : Except Unit ℕ)).2.2).countP Message.isCudaMem = 0 := by
  refine ⟨rfl, ?_, ?_⟩ <;>
    norm_num [TimeAndMemoryTracker.run, pyWith, TimeAndMemoryTracker.enter,
      TimeAndMemoryTracker.exit, get_peak_memory_usage, pyTruthy, envCudaZeroB, state0,
      logMessages, Message.isCudaMem, List.countP_cons]
  rintro a (rfl | rfl) <;> rfl

/-- C4 amended: for every wrapped unit of work that completes normally the
profiler emits exactly one elapsed-time message, then exactly one host-memory
message, then — only when an accelerator is present and its peak is nonzero —
exactly one accelerator-memory message, in that order; elapsed time is the
exit time minus the entry time and is nonnegative, and each peak byte count
is divided by 1,048,576. -/
theorem c4_amended_report_order (env : TrackerEnv) (s : TrackerState) (E A : Type)
    (a : A) (h : env.startTime ≤ env.endTime) :
    logMessages (TimeAndMemoryTracker.run env s (Except.ok a : Except E A)).2.2 =
      [Message.execTime (env.endTime - env.startTime),
       Message.cpuMem ((env.tracedPeakBytes : ℚ) / (1024 * 1024))] ++
      (if env.cudaAvailable = true ∧ env.cudaPeakBytes ≠ 0 then
        [Message.cudaMem ((env.cudaPeakBytes : ℚ) / (1024 * 1024))]
      else []) ∧
    (TimeAndMemoryTracker.run env s (Except.ok a : Except E A)).1 = Except.ok (some a) ∧
    0 ≤ env.endTime - env.startTime := by
  refine ⟨?_, ?_, sub_nonneg.mpr h⟩
  · cases hc : env.cudaAvailable
    · simp [TimeAndMemoryTracker.run, pyWith, TimeAndMemoryTracker.enter,
        TimeAndMemoryTracker.exit, get_peak_memory_usage, pyTruthy, hc, logMessages]
    · by_cases hp : env.cudaPeakBytes = 0
      · simp [TimeAndMemoryTracker.run, pyWith, TimeAndMemoryTracker.enter,
          TimeAndMemoryTracker.exit, get_peak_memory_usage, pyTruthy, hc, hp, logMessages]
      · have hq : ((env.cudaPeakBytes : ℚ) / (1024 * 1024)) ≠ 0 :=
          div_ne_zero (Nat.cast_ne_zero.mpr hp) (by norm_num)
        simp [TimeAndMemoryTracker.run, pyWith, TimeAndMemoryTracker.enter,
          TimeAndMemoryTracker.exit, get_peak_memory_usage, pyTruthy, hc, hp, hq,
          logMessages]
  · simp [TimeAndMemoryTracker.run, pyWith, TimeAndMemoryTracker.enter,
      TimeAndMemoryTracker.exit]

/-- C4 amended witness: the report shape evaluated on a concrete
no-accelerator environment with a normally completing block. -/
theorem c4_amended_witness :
    envNoCuda.startTime ≤ envNoCuda.endTime ∧
    (logMessages
        (TimeAndMemoryTracker.run envNoCuda state0
          (Except.ok (0 : ℕ) : Except Unit ℕ)).2.2 =
      [Message.execTime (envNoCuda.endTime - envNoCuda.startTime),
       Message.cpuMem ((envNoCuda.tracedPeakBytes : ℚ) / (1024 * 1024))] ++
      (if envNoCuda.cudaAvailable = true ∧ envNoCuda.cudaPeakBytes ≠ 0 then
        [Message.cudaMem ((envNoCuda.cudaPeakBytes : ℚ) / (1024 * 1024))]
      else []) ∧
     (TimeAndMemoryTracker.run envNoCuda state0 (Except.ok (0 : ℕ) : Except Unit ℕ)).1
       = Except.ok (some 0) ∧
     0 ≤ envNoCuda.endTime - envNoCuda.startTime) :=
  ⟨by norm_num [envNoCuda],
   c4_amended_report_order envNoCuda state0 Unit ℕ 0 (by norm_num [envNoCuda])⟩

/-- Unfolding lemma for running one effect then the rest. -/
theorem applyEffects_cons (e : Effect) (t : List Effect) (s : TrackerState) :
    applyEffects (e :: t) s = applyEffects t (applyEffect s e) := rfl

/-- Once tracing is off, a trace without a tracemalloc start keeps it off. -/
theorem applyEffects_stays_stopped (l : List Effect) (s : TrackerState)
    (hs : Effect.tracemallocStart ∉ l) (h0 : s.tracingActive = false) :
    (applyEffects l s).tracingActive = false := by
  induction l generalizing s with
  | nil => simpa [applyEffects] using h0
  | cons e t ih =>
    simp only [List.mem_cons, not_or] at hs
    have h1 : (applyEffect s e).tracingActive = false := by
      cases e
      case tracemallocStart => exact absurd rfl hs.1
      all_goals simp [applyEffect, h0]
    rw [applyEffects_cons]
    exact ih (applyEffect s e) hs.2 h1

/-- A trace containing a tracemalloc stop but no start leaves tracing off,
whatever the starting state. -/
theorem applyEffects_stop_mem (l : List Effect) (s : TrackerState)
    (hs : Effect.tracemallocStart ∉ l) (hm : Effect.tracemallocStop ∈ l) :
    (applyEffects l s).tracingActive = false := by
  induction l generalizing s with
  | nil => cases hm
  | cons e t ih =>
    simp only [List.mem_cons, not_or] at hs
    rw [applyEffects_cons]
    rcases List.mem_cons.mp hm with he | ht
    · cases he
      exact applyEffects_stays_stopped t _ hs.2 rfl
    · exact ih (applyEffect s e) hs.2 ht

/-- The exit-step effect trace starts with the tracemalloc query and stop,
and contains no tracemalloc start afterwards. -/
theorem exit_effects_shape (env : TrackerEnv) (s : TrackerState) :
    ∃ tail, (TimeAndMemoryTracker.exit env s).2.1
        = Effect.tracemallocGetTraced :: Effect.tracemallocStop :: tail ∧
      Effect.tracemallocStart ∉ tail := by
  refine ⟨_, rfl, ?_⟩
  cases hc : env.cudaAvailable <;>
    by_cases ht : pyTruthy (get_peak_memory_usage env).1 = true <;>
      simp [TimeAndMemoryTracker.exit, get_peak_memory_usage, hc] at ht ⊢

/-- C10: in the release step, host-heap tracing is stopped before any message
is emitted: any partial execution of the exit effect trace that has reached a
logger message leaves tracing inactive, so a logging sink that raises partway
through reporting still leaves tracing off. -/
theorem c10_tracing_stopped_before_logging (env : TrackerEnv) (s s2 : TrackerState)
    (n : ℕ)
    (h : (((TimeAndMemoryTracker.exit env s).2.1).take n).any Effect.isLog = true) :
    (applyEffects (((TimeAndMemoryTracker.exit env s).2.1).take n) s2).tracingActive
      = false := by
  obtain ⟨tail, hshape, hstart⟩ := exit_effects_shape env s
  rw [hshape] at h ⊢
  rcases n with _ | n
  · simp at h
  rcases n with _ | n
  · simp [Effect.isLog] at h
  rw [List.take_succ_cons, List.take_succ_cons] at h ⊢
  refine applyEffects_stop_mem _ _ ?_ ?_
  · intro hmem
    rcases List.mem_cons.mp hmem with h1 | hmem
    · exact Effect.noConfusion h1
    rcases List.mem_cons.mp hmem with h1 | hmem
    · exact Effect.noConfusion h1
    exact hstart (List.take_subset n tail hmem)
  · exact List.mem_cons.mpr (Or.inr (List.mem_cons.mpr (Or.inl rfl)))

/-- C10 witness: a concrete truncated execution of the exit trace that has
emitted a message, starting from a state in which tracing was active, ends
with tracing off. -/
theorem c10_witness :
    ((((TimeAndMemoryTracker.exit envNoCuda stateActive).2.1).take 5).any Effect.isLog
      = true) ∧
    (applyEffects (((TimeAndMemoryTracker.exit envNoCuda stateActive).2.1).take 5)
        stateActive).tracingActive = false := by
  have h : (((TimeAndMemoryTracker.exit envNoCuda stateActive).2.1).take 5).any
      Effect.isLog = true := by
    norm_num [TimeAndMemoryTracker.exit, get_peak_memory_usage, pyTruthy, envNoCuda,
      stateActive, Effect.isLog]
  exact ⟨h, c10_tracing_stopped_before_logging envNoCuda stateActive stateActive 5 h⟩

/-- C6: `read_csv_in_directory` errors with a cause-identifying message when
the directory does not exist, contains no CSV file, or contains more than one
CSV file, and returns the single CSV file's contents as a dataframe when
exactly one is present. -/
theorem c6_read_csv_exactly_one (fs : FileSys) (pd_read_csv : String → DataFrame)
    (p : String) :
    (fs.kind p = PathKind.missing →
      read_csv_in_directory fs pd_read_csv p
        = Except.error (PyErr.fileNotFoundError ("Directory does not exist: " ++ p))) ∧
    (∀ listing, fs.kind p = PathKind.dir listing →
      (listing.filter (fun file => strEndsWith file ".csv") = [] →
        read_csv_in_directory fs pd_read_csv p
          = Except.error (PyErr.valueError ("No CSV file found in directory " ++ p))) ∧
      (1 < (listing.filter (fun file => strEndsWith file ".csv")).length →
        read_csv_in_directory fs pd_read_csv p
          = Except.error
              (PyErr.valueError ("Multiple CSV files found in directory " ++ p ++ "."))) ∧
      (∀ f, listing.filter (fun file => strEndsWith file ".csv") = [f] →
        read_csv_in_directory fs pd_read_csv p
          = Except.ok (pd_read_csv (os_path_join p f)))) := by
  constructor
  · intro h
    simp [read_csv_in_directory, os_path_exists, h]
  · intro listing h
    refine ⟨?_, ?_, ?_⟩
    · intro hf
      simp [read_csv_in_directory, os_path_exists, h, hf]
    · intro hf
      cases hl : listing.filter (fun file => strEndsWith file ".csv") with
      | nil => rw [hl] at hf; simp at hf
      | cons a t =>
          rw [hl] at hf
          have ht : t ≠ [] := by
            cases t with
            | nil => simp at hf
            | cons b u => simp
          simp [read_csv_in_directory, os_path_exists, h, hl, ht]
    · intro f hf
      simp [read_csv_in_directory, os_path_exists, h, hf]

/-- C6 witness: the four branches evaluated on a concrete file system. -/
theorem c6_witness :
    read_csv_in_directory fsFixture readCsvFixture "missing"
      = Except.error
          (PyErr.fileNotFoundError ("Directory does not exist: " ++ "missing")) ∧
    read_csv_in_directory fsFixture readCsvFixture "nocsv"
      = Except.error (PyErr.valueError ("No CSV file found in directory " ++ "nocsv")) ∧
    read_csv_in_directory fsFixture readCsvFixture "multicsv"
      = Except.error
          (PyErr.valueError
            ("Multiple CSV files found in directory " ++ "multicsv" ++ ".")) ∧
    read_csv_in_directory fsFixture readCsvFixture "onecsv"
      = Except.ok (readCsvFixture (os_path_join "onecsv" "data.csv")) :=
  ⟨(c6_read_csv_exactly_one fsFixture readCsvFixture "missing").1 (by decide),
   ((c6_read_csv_exactly_one fsFixture readCsvFixture "nocsv").2
     ["a.txt", "b.json"] (by decide)).1 (by decide),
   ((c6_read_csv_exactly_one fsFixture readCsvFixture "multicsv").2
     ["a.csv", "b.csv"] (by decide)).2.1 (by decide),
   ((c6_read_csv_exactly_one fsFixture readCsvFixture "onecsv").2
     ["data.csv", "note.txt"] (by decide)).2.2 "data.csv" (by decide)⟩

/-- C8: on a directory with at least one JSON file, `read_json_as_dict`
returns the first JSON file in directory-listing order (ignoring any others,
so several JSON files do not raise); it errors exactly when the path is
neither a file nor a directory, or is a directory with no JSON files. -/
theorem c8_read_json_first_match (fs : FileSys) (json_load : String → JsonDict)
    (p : String) :
    (∀ listing f rest, fs.kind p = PathKind.dir listing →
      listing.filter (fun x => strEndsWith x ".json") = f :: rest →
      read_json_as_dict fs json_load p = Except.ok (json_load (os_path_join p f))) ∧
    ((∃ e, read_json_as_dict fs json_load p = Except.error e) ↔
      (fs.kind p = PathKind.missing ∨
        ∃ listing, fs.kind p = PathKind.dir listing ∧
          listing.filter (fun x => strEndsWith x ".json") = [])) := by
  constructor
  · intro listing f rest h hf
    simp [read_json_as_dict, h, hf]
  · cases hk : fs.kind p with
    | dir listing =>
        cases hl : listing.filter (fun x => strEndsWith x ".json") with
        | nil =>
            simp [read_json_as_dict, hk, hl]
            intro a ha
            simpa using List.filter_eq_nil_iff.mp hl a ha
        | cons a t =>
            simp [read_json_as_dict, hk, hl]
            have ha : a ∈ listing.filter (fun x => strEndsWith x ".json") := by
              rw [hl]
              exact List.mem_cons_self a t
            have hmem := List.mem_filter.mp ha
            exact ⟨a, hmem.1, hmem.2⟩
    | file => simp [read_json_as_dict, hk]
    | missing => simp [read_json_as_dict, hk]

/-- C8 witness: a directory with two JSON files does not error and returns
the first one in listing order. -/
theorem c8_witness :
    read_json_as_dict fsFixture jsonLoadFixture "multijson"
      = Except.ok (jsonLoadFixture (os_path_join "multijson" "a.json")) :=
  (c8_read_json_first_match fsFixture jsonLoadFixture "multijson").1
    ["a.json", "b.json", "c.txt"] "a.json" ["b.json"] (by decide) (by decide)

/-- C7: `set_seeds` succeeds exactly on integer seed values, setting the
`random` and `np.random` generator states (and the hash seed) from the value,
and errors with a cause-identifying message on every non-integer value. -/
theorem c7_set_seeds_int_iff (s : RngState) :
    (∀ n : ℤ, set_seeds (PyVal.int n) s
      = Except.ok
          { pythonhashseed := some (toString n), random_state := some n,
            np_random_state := some n }) ∧
    (∀ v : PyVal, (∀ n : ℤ, v ≠ PyVal.int n) →
      ∃ msg, set_seeds v s = Except.error (PyErr.valueError msg)) := by
  constructor
  · intro n
    rfl
  · intro v hv
    cases v with
    | int n => exact absurd rfl (hv n)
    | float q => exact ⟨_, rfl⟩
    | str t => exact ⟨_, rfl⟩
    | noneVal => exact ⟨_, rfl⟩

/-- C7 witness: seeding with the integer 42 sets both generator states, and a
string seed errors. -/
theorem c7_witness :
    (set_seeds (PyVal.int 42) rngFixture
      = Except.ok
          { pythonhashseed := some (toString (42 : ℤ)), random_state := some 42,
            np_random_state := some 42 }) ∧
    (∃ msg, set_seeds (PyVal.str "abc") rngFixture
      = Except.error (PyErr.valueError msg)) :=
  ⟨(c7_set_seeds_int_iff rngFixture).1 42,
   (c7_set_seeds_int_iff rngFixture).2 (PyVal.str "abc") (fun _ h => PyVal.noConfusion h)⟩

/-- C9: `make_serializable` returns a plain int for Python and numpy
integers, a plain float for numpy floats, a plain list for numpy arrays, and
raises `TypeError` for every other object. -/
theorem c9_make_serializable_cases :
    (∀ n : ℤ, make_serializable (PyObj.pyInt n) = Except.ok (Serialized.intVal n)) ∧
    (∀ n : ℤ, make_serializable (PyObj.npInt n) = Except.ok (Serialized.intVal n)) ∧
    (∀ q : ℚ, make_serializable (PyObj.npFloat q) = Except.ok (Serialized.floatVal q)) ∧
    (∀ xs : List ℚ, make_serializable (PyObj.npArray xs)
      = Except.ok (Serialized.listVal xs)) ∧
    (∀ o : PyObj, (∀ n, o ≠ PyObj.pyInt n) → (∀ n, o ≠ PyObj.npInt n) →
      (∀ q, o ≠ PyObj.npFloat q) → (∀ xs, o ≠ PyObj.npArray xs) →
      ∃ msg, make_serializable o = Except.error (PyErr.typeError msg)) := by
  refine ⟨fun n => rfl, fun n => rfl, fun q => rfl, fun xs => rfl, ?_⟩
  intro o h1 h2 h3 h4
  cases o with
  | pyInt n => exact absurd rfl (h1 n)
  | npInt n => exact absurd rfl (h2 n)
  | npFloat q => exact absurd rfl (h3 q)
  | npArray xs => exact absurd rfl (h4 xs)
  | pyFloat q => exact ⟨_, rfl⟩
  | pyStr t => exact ⟨_, rfl⟩
  | pyNone => exact ⟨_, rfl⟩

/-- C9 witness: a Python int is widened to a plain int and a non-numeric
object raises `TypeError`. -/
theorem c9_witness :
    make_serializable (PyObj.pyInt 5) = Except.ok (Serialized.intVal 5) ∧
    (∃ msg, make_serializable PyObj.pyNone = Except.error (PyErr.typeError msg)) :=
  ⟨c9_make_serializable_cases.1 5,
   c9_make_serializable_cases.2.2.2.2 PyObj.pyNone (fun _ h => PyObj.noConfusion h)
     (fun _ h => PyObj.noConfusion h) (fun _ h => PyObj.noConfusion h)
     (fun _ h => PyObj.noConfusion h)⟩
